import Mathlib

/-!
Verification of the containerd client layer (`client/client.go`).

The Go source is shallowly embedded: each Go function relevant to the
claims is translated into an executable Lean definition.  External
collaborators (the gRPC connection, the leases service, the registry
resolver, the graph-walk dispatch primitive) are represented by
environment records carrying their outcomes, and the observable calls a
function makes are recorded in an event trace, so that properties about
lease discipline, network activity and argument rewriting can be stated
and proved.
-/

/-- Error values produced by the client layer, mirroring the `errdefs`
sentinel errors and the wrapped errors in `client.go`. -/
inductive Err where
  /-- `errdefs.ErrUnavailable` -/
  | unavailable
  /-- `errdefs.ErrNotImplemented` -/
  | notImplemented
  /-- a platform string that `platforms.ParseAll` rejects -/
  | invalidPlatform (s : String)
  /-- any error returned by an external collaborator -/
  | external (msg : String)
deriving DecidableEq, Repr

/-- A parsed platform (OS/architecture triple), kept opaque: the client
layer never inspects it, only passes it to matcher construction. -/
structure Platform where
  spec : String
deriving DecidableEq, Repr

/-- A platform matcher value (`platforms.MatchComparer`).  The client
layer only ever builds `platforms.All`, `platforms.Any(ps...)`, or keeps
a caller-supplied matcher, so those are the three constructors. -/
inductive Matcher where
  | all
  | anyOf (ps : List Platform)
  | custom (id : Nat)
deriving DecidableEq, Repr

/-- Modelled from the spec: `platforms.Parse` is external to this
repository (package `github.com/containerd/platforms`); the spec says
only that an invalid platform string is a terminal parse error.  We
model the invalid case as the empty string. -/
def parsePlatform (s : String) : Except Err Platform :=
  if s = "" then .error (.invalidPlatform s) else .ok ⟨s⟩

/-- Modelled from the spec: `platforms.ParseAll` parses each string in
order and fails on the first invalid one. -/
def parseAll (ss : List String) : Except Err (List Platform) :=
  match ss with
  | [] => .ok []
  | s :: rest =>
    match parsePlatform s with
    | .error e => .error e
    | .ok p =>
      match parseAll rest with
      | .error e => .error e
      | .ok ps => .ok (p :: ps)

/-- `RemoteContext` (client.go lines 366-434): the per-call
configuration for Fetch/Push.  Handlers, wrappers and resolvers are
opaque to the orchestration logic and are modelled by identifiers. -/
structure RemoteContext where
  /-- `Resolver`: identifier of the resolver in use (0 = the default
  docker registry resolver). -/
  resolverId : Nat := 0
  /-- `PlatformMatcher` -/
  platformMatcher : Option Matcher := none
  /-- `Unpack` -/
  unpack : Bool := false
  /-- `Snapshotter` -/
  snapshotter : String := ""
  /-- `Labels` -/
  labels : List (String × String) := []
  /-- `BaseHandlers`, as opaque handler identifiers -/
  baseHandlers : List Nat := []
  /-- `HandlerWrapper`, as an opaque wrapper identifier -/
  handlerWrapper : Option Nat := none
  /-- `Platforms` -/
  platforms : List String := []
  /-- `MaxConcurrentDownloads` -/
  maxConcurrentDownloads : Nat := 0
  /-- `ConcurrentLayerFetchBuffer` -/
  concurrentLayerFetchBuffer : Nat := 0
  /-- `MaxConcurrentUploadedLayers` -/
  maxConcurrentUploadedLayers : Nat := 0
  /-- `AllMetadata` -/
  allMetadata : Bool := false
deriving DecidableEq, Repr

/-- `defaultRemoteContext` (client.go lines 436-440): fresh context with
the default docker resolver and zero values everywhere else. -/
def defaultRemoteContext : RemoteContext := {}

/-- A `RemoteOpt` is a caller-supplied option function mutating the
`RemoteContext`; in Go it may also fail. -/
def RemoteOpt : Type := RemoteContext → Except Err RemoteContext

/-- The option-application loop shared by Fetch (lines 446-450) and
Push (lines 485-489): apply each option in order, aborting on the first
error. -/
def applyOpts (opts : List RemoteOpt) (ctx : RemoteContext) : Except Err RemoteContext :=
  match opts with
  | [] => .ok ctx
  | o :: rest =>
    match o ctx with
    | .error e => .error e
    | .ok ctx2 => applyOpts rest ctx2

/-- Fetch's platform-matcher resolution (client.go lines 456-467):
if no explicit matcher is set, an empty platform list selects
`platforms.All`, otherwise the list is parsed and wrapped in
`platforms.Any`. -/
def resolveMatcherFetch (pm : Option Matcher) (platformList : List String) :
    Except Err Matcher :=
  match pm with
  | some m => .ok m
  | none =>
    if platformList.length = 0 then
      .ok .all
    else
      match parseAll platformList with
      | .error e => .error e
      | .ok ps => .ok (.anyOf ps)

/-- Push's platform-matcher resolution (client.go lines 490-500):
if no explicit matcher is set, a non-empty platform list is parsed and
wrapped in `platforms.Any`, otherwise `platforms.All` is selected.  The
branches are written in the mirror order of Fetch's. -/
def resolveMatcherPush (pm : Option Matcher) (platformList : List String) :
    Except Err Matcher :=
  match pm with
  | some m => .ok m
  | none =>
    if platformList.length > 0 then
      match parseAll platformList with
      | .error e => .error e
      | .ok ps => .ok (.anyOf ps)
    else
      .ok .all

/-- Observable calls made by the client layer on its collaborators. -/
inductive Event where
  /-- a lease was acquired via `WithLease` (leases create succeeded) -/
  | leaseCreate
  /-- the lease release function `done` was invoked -/
  | leaseRelease
  /-- the graph-walk fetch primitive `c.fetch` was invoked for `ref` -/
  | dispatchFetch (ref : String)
  /-- `c.createNewImage` was invoked to register the image record -/
  | createImage
  /-- `pushCtx.Resolver.Pusher(ctx, ref)` was invoked for `ref` -/
  | resolvePusher (ref : String)
  /-- `remotes.PushContent` was invoked with the given upload limiter -/
  | pushContent (limiter : Option Nat)
  /-- `c.conn.Close()` was invoked on the connection with this id -/
  | connClose (id : Nat)
  /-- the captured connector (dial) was invoked -/
  | dialAttempt
deriving DecidableEq, Repr

/-- Outcomes of the external collaborators a Fetch call touches, in
program order: lease acquisition, the graph-walk fetch primitive, and
image-record creation.  Image records are opaque identifiers. -/
structure FetchEnv where
  leaseResult : Except Err Unit
  fetchResult : Except Err Nat
  createResult : Except Err Nat
deriving Repr

/-- `Client.Fetch` (client.go lines 444-480): build the `RemoteContext`
from defaults plus options, reject unpack, resolve the platform
matcher, acquire a lease (released on every later exit via `defer`),
run the fetch primitive and register the image.  Returns the result
together with the trace of collaborator calls. -/
def Fetch (opts : List RemoteOpt) (env : FetchEnv) (ref : String) :
    Except Err Nat × List Event :=
  match applyOpts opts defaultRemoteContext with
  | .error e => (.error e, [])
  | .ok fetchCtx =>
    if fetchCtx.unpack then
      (.error .notImplemented, [])
    else
      match resolveMatcherFetch fetchCtx.platformMatcher fetchCtx.platforms with
      | .error e => (.error e, [])
      | .ok _matcher =>
        match env.leaseResult with
        | .error e => (.error e, [])
        | .ok _ =>
          match env.fetchResult with
          | .error e => (.error e, [.leaseCreate, .dispatchFetch ref, .leaseRelease])
          | .ok _img =>
            match env.createResult with
            | .error e =>
              (.error e, [.leaseCreate, .dispatchFetch ref, .createImage, .leaseRelease])
            | .ok _ =>
              (env.createResult, [.leaseCreate, .dispatchFetch ref, .createImage, .leaseRelease])

/-- Outcomes of the external collaborators a Push call touches, in
program order: pusher resolution and the push-content primitive. -/
structure PushEnv where
  pusherResult : Except Err Unit
  pushResult : Except Err Unit
deriving Repr

/-- The handler wrapper Push passes to `remotes.PushContent`
(client.go lines 512-524), as a symbolic value: either the base
handlers prepended and then the caller wrapper applied, or the caller
wrapper alone, or nothing. -/
inductive PushWrapper where
  | baseThen (base : List Nat) (hw : Option Nat)
  | onlyCaller (hw : Nat)
deriving DecidableEq, Repr

/-- Wrapper composition in `Client.Push` (client.go lines 512-524). -/
def pushWrapper (pushCtx : RemoteContext) : Option PushWrapper :=
  if pushCtx.baseHandlers.length > 0 then
    some (.baseThen pushCtx.baseHandlers pushCtx.handlerWrapper)
  else
    match pushCtx.handlerWrapper with
    | some hw => some (.onlyCaller hw)
    | none => none

/-- `Client.Push` (client.go lines 483-532): build the `RemoteContext`,
resolve the platform matcher, annotate the reference with the digest
when it has no `@` qualifier, resolve a pusher, compose the handler
wrapper, build the upload limiter, and invoke `remotes.PushContent`.
Returns the result together with the trace of collaborator calls. -/
def Push (opts : List RemoteOpt) (env : PushEnv) (ref : String) (digest : String) :
    Except Err Unit × List Event :=
  match applyOpts opts defaultRemoteContext with
  | .error e => (.error e, [])
  | .ok pushCtx =>
    match resolveMatcherPush pushCtx.platformMatcher pushCtx.platforms with
    | .error e => (.error e, [])
    | .ok _matcher =>
      let ref2 := if ref.contains '@' then ref else ref ++ "@" ++ digest
      match env.pusherResult with
      | .error e => (.error e, [.resolvePusher ref2])
      | .ok _ =>
        let _wrapper := pushWrapper pushCtx
        let limiter : Option Nat :=
          if pushCtx.maxConcurrentUploadedLayers > 0 then
            some pushCtx.maxConcurrentUploadedLayers
          else
            none
        match env.pushResult with
        | .error e => (.error e, [.resolvePusher ref2, .pushContent limiter])
        | .ok _ => (.ok (), [.resolvePusher ref2, .pushContent limiter])

/-- Number of lease acquisitions recorded in a trace. -/
def leaseCreates (tr : List Event) : Nat :=
  (tr.filter fun e => match e with | .leaseCreate => true | _ => false).length

/-- Number of lease releases recorded in a trace. -/
def leaseReleases (tr : List Event) : Nat :=
  (tr.filter fun e => match e with | .leaseRelease => true | _ => false).length

/-- Number of network-touching collaborator calls in a trace (anything
other than the purely local lease bookkeeping is a remote call; lease
create/release are remote calls too, so every event counts). -/
def networkCalls (tr : List Event) : Nat := tr.length

/-- Modelled from the spec: `defaults.DefaultRuntime`, the compiled-in
default runtime name (package `defaults` is outside this repository
unit).  The concrete string is irrelevant; it is non-empty. -/
def defaultRuntimeName : String := "io.containerd.runc.v2"

/-- Modelled from the spec: `defaults.DefaultSnapshotter`, the
compiled-in default snapshotter name. -/
def defaultSnapshotterName : String := "overlayfs"

/-- One call of `Client.defaultRuntime` (client.go lines 247-268),
with the mutex elided (the lock is held for the whole call, so a call
is atomic).  Inputs: the client's default namespace, the current cached
value `c.runtime.value` (empty string = unset), and the outcome of the
namespace-label lookup `GetLabel` for this call.  Output: the returned
`(value, error)` pair and the new cached value.  On a label-lookup
error the Go code returns `defaults.DefaultRuntime` together with the
wrapped error and leaves the cache untouched. -/
def defaultRuntime (defaultns : String) (cache : String)
    (labelRes : Except Err String) : (String × Option Err) × String :=
  if cache ≠ "" then
    ((cache, none), cache)
  else if defaultns ≠ "" then
    match labelRes with
    | .error e => ((defaultRuntimeName, some e), cache)
    | .ok label =>
      if label ≠ "" then
        ((label, none), label)
      else
        ((defaultRuntimeName, none), defaultRuntimeName)
  else
    ((defaultRuntimeName, none), defaultRuntimeName)

/-- A gRPC connection handle, with an identity and a closed flag so
that close-before-dial behaviour is observable. -/
structure ConnState where
  id : Nat
  closed : Bool
deriving DecidableEq, Repr

/-- The `clientOpts` assembled by the `Opt` functions passed to `New`
(fields irrelevant to the claims are kept but opaque). -/
structure ClientOpts where
  timeout : Nat := 0
  defaultns : String := ""
  defaultRuntime : String := ""
  defaultPlatform : Option Matcher := none
  /-- `services`: `some` means a local service-override table was
  supplied; its contents are opaque here. -/
  services : Option Unit := none
deriving DecidableEq, Repr

/-- An `Opt` is a caller-supplied option function mutating
`clientOpts`; in Go it may also fail. -/
def ClientOpt : Type := ClientOpts → Except Err ClientOpts

/-- The option-application loop of `New` (client.go lines 102-107). -/
def applyClientOpts (opts : List ClientOpt) (c : ClientOpts) : Except Err ClientOpts :=
  match opts with
  | [] => .ok c
  | o :: rest =>
    match o c with
    | .error e => .error e
    | .ok c2 => applyClientOpts rest c2

/-- The `Client` record as built by `New` (client.go lines 210-223);
mutexes are elided and the connector closure is represented by whether
one was captured. -/
structure ClientRecord where
  defaultns : String
  platform : Matcher
  runtimeValue : String
  services : Option Unit
  conn : Option ConnState
  hasConnector : Bool
deriving DecidableEq, Repr

/-- Modelled from the spec: `platforms.Default()`, the detected host
platform matcher (external package). -/
def defaultHostMatcher : Matcher := .custom 0

/-- `New` (client.go lines 101-176): apply options, fill in the
timeout default, build the client record, dial eagerly when an address
is given (the `dial` argument is the connector's outcome), and fail
with `errdefs.ErrUnavailable` when neither services nor a connection
are available. -/
def New (address : String) (opts : List ClientOpt) (dial : Except Err ConnState) :
    Except Err ClientRecord :=
  match applyClientOpts opts {} with
  | .error e => .error e
  | .ok copts0 =>
    let copts := if copts0.timeout = 0 then { copts0 with timeout := 10 } else copts0
    let c : ClientRecord :=
      { defaultns := copts.defaultns
        runtimeValue := if copts.defaultRuntime ≠ "" then copts.defaultRuntime else ""
        platform :=
          match copts.defaultPlatform with
          | some p => p
          | none => defaultHostMatcher
        services := copts.services
        conn := none
        hasConnector := false }
    match
      (if address ≠ "" then
        match dial with
        | .error e => Except.error e
        | .ok conn => Except.ok { c with conn := some conn, hasConnector := true }
      else
        Except.ok c) with
    | .error e => .error e
    | .ok c2 =>
      if copts.services.isNone && c2.conn.isNone then
        .error .unavailable
      else
        .ok c2

/-- The client state seen by `Reconnect`: the installed connection and
the captured connector.  The connector is represented by the outcome
of invoking it once (`none` = no connector was captured). -/
structure ReClient where
  conn : ConnState
  connector : Option (Except Err ConnState)
deriving Repr

/-- `Client.Reconnect` (client.go lines 226-239): fail with
`errdefs.ErrUnavailable` when no connector was captured; otherwise
close the current connection, invoke the connector, and install the
new connection only on success.  Returns (error?, new state, trace). -/
def Reconnect (c : ReClient) : (Option Err × ReClient) × List Event :=
  match c.connector with
  | none => ((some .unavailable, c), [])
  | some dialRes =>
    let closedConn : ConnState := { c.conn with closed := true }
    let c1 : ReClient := { c with conn := closedConn }
    match dialRes with
    | .error e => ((some e, c1), [.connClose c.conn.id, .dialAttempt])
    | .ok newConn =>
      ((none, { c1 with conn := newConn }), [.connClose c.conn.id, .dialAttempt])

/-- An OCI content descriptor (`ocispec.Descriptor`), restricted to the
fields `writeIndex` reads. -/
structure Descriptor where
  mediaType : String := ""
  digest : String := ""
  size : Int := 0
deriving DecidableEq, Repr

/-- An OCI image index (`ocispec.Index`), restricted to the manifest
list `writeIndex` iterates over. -/
structure OCIIndex where
  manifests : List Descriptor
deriving DecidableEq, Repr

/-- The garbage-collector reference label map built by `writeIndex`
(client.go lines 584-587): one entry per manifest, keyed
`containerd.io/gc.ref.content.<i>` and valued with the manifest's
digest string.  The Go map is modelled as an association list in
insertion order (all keys are distinct). -/
def writeIndexLabels (index : OCIIndex) : List (String × String) :=
  index.manifests.enum.map fun p =>
    ("containerd.io/gc.ref.content." ++ toString p.1, p.2.digest)

/-- Modelled from the spec: `json.Marshal` on the index (standard
library, outside this repository).  Only the manifest list is encoded;
the spec says the index is read and written as JSON. -/
def jsonMarshalIndex (index : OCIIndex) : String :=
  "\x7b\"manifests\":["
    ++ String.intercalate ","
        (index.manifests.map fun m =>
          "\x7b\"mediaType\":\"" ++ m.mediaType ++ "\",\"digest\":\""
            ++ m.digest ++ "\",\"size\":" ++ toString m.size ++ "\x7d")
    ++ "]\x7d"

/-- What `writeIndex` hands to `writeContent` (client.go lines
583-593): the OCI image-index media type, the ref, the JSON-serialized
index, and the label map. -/
structure WrittenContent where
  mediaType : String
  ref : String
  data : String
  labels : List (String × String)
deriving DecidableEq, Repr

/-- `writeIndex` (client.go lines 583-593): build the gc-ref label
map, serialize the index as JSON, and write the blob with those
labels.  (`json.Marshal` cannot fail on this data, so the error branch
is not reachable in the model.) -/
def writeIndex (index : OCIIndex) (ref : String) : WrittenContent :=
  { mediaType := "application/vnd.oci.image.index.v1+json"
    ref := ref
    data := jsonMarshalIndex index
    labels := writeIndexLabels index }

/-- `Client.resolveSnapshotterName` (client.go lines 860-875): an
explicit name wins; otherwise consult the namespace label (failing on
lookup error), falling back to the compiled-in default when the label
is empty.  `labelRes` is the outcome of `GetLabel` for this call. -/
def resolveSnapshotterName (name : String) (labelRes : Except Err String) :
    Except Err String :=
  if name = "" then
    match labelRes with
    | .error e => .error e
    | .ok label =>
      if label ≠ "" then .ok label else .ok defaultSnapshotterName
  else
    .ok name

/-- The snapshotter name actually used by `Client.SnapshotService`
(client.go lines 681-692): when `resolveSnapshotterName` fails the
error is dropped and the compiled-in default is used.  The function
returns only a name — `SnapshotService` has no error result. -/
def snapshotServiceName (snapshotterName : String) (labelRes : Except Err String) :
    String :=
  match resolveSnapshotterName snapshotterName labelRes with
  | .error _ => defaultSnapshotterName
  | .ok n => n

/-- The sequence of references for which a trace resolves a pusher. -/
def pusherResolutions (tr : List Event) : List String :=
  tr.filterMap fun e =>
    match e with
    | .resolvePusher r => some r
    | _ => none

/-- A concrete two-manifest checkpoint index used by witnesses. -/
def sampleCheckpointIndex : OCIIndex :=
  ⟨[{ mediaType := "application/vnd.oci.image.manifest.v1+json",
      digest := "sha256:aaa", size := 3 },
    { mediaType := "application/vnd.oci.image.manifest.v1+json",
      digest := "sha256:bbb", size := 4 }]⟩

/-- C2 counterexample: the claim says Fetch's and Push's
platform-matcher resolution procedures differ in precedence order; at
the precedence-relevant configurations (no explicit matcher with a
platform list, no explicit matcher with an empty list, and an explicit
matcher together with a list) the two procedures return identical
results, so no behavioural difference exists. -/
theorem matcher_resolution_agreement_at_inputs :
    resolveMatcherFetch none ["linux/amd64"] = resolveMatcherPush none ["linux/amd64"]
    ∧ resolveMatcherFetch none [] = resolveMatcherPush none []
    ∧ resolveMatcherFetch (some (.custom 7)) ["linux/amd64"]
        = resolveMatcherPush (some (.custom 7)) ["linux/amd64"] :=
  ⟨rfl, rfl, rfl⟩

/-- C2 (amended): Push resolves its platform matcher the same way as
Fetch — explicit matcher first, then the platform-string list, then
match-all.  The source writes the two inner branches in mirror order,
but the procedures are extensionally equal on every input. -/
theorem push_matcher_resolution_equals_fetch (pm : Option Matcher)
    (platformList : List String) :
    resolveMatcherFetch pm platformList = resolveMatcherPush pm platformList := by
  cases pm with
  | some m => rfl
  | none =>
    cases platformList with
    | nil => rfl
    | cons s rest => simp [resolveMatcherFetch, resolveMatcherPush]

/-- C3: when the composed `RemoteContext` has the unpack flag set,
Fetch fails with the NotImplemented error and its trace is empty: no
lease acquisition and no collaborator (network) call happened. -/
theorem fetch_unpack_rejected_before_lease_and_network
    (opts : List RemoteOpt) (env : FetchEnv) (ref : String)
    (fetchCtx : RemoteContext)
    (hopts : applyOpts opts defaultRemoteContext = .ok fetchCtx)
    (hunpack : fetchCtx.unpack = true) :
    Fetch opts env ref = (.error .notImplemented, [])
    ∧ leaseCreates (Fetch opts env ref).2 = 0
    ∧ networkCalls (Fetch opts env ref).2 = 0 := by
  unfold Fetch
  rw [hopts]
  simp [hunpack, leaseCreates, networkCalls]

/-- C3 witness: a concrete Fetch whose options set the unpack flag. -/
theorem fetch_unpack_rejected_witness :
    Fetch [fun ctx => .ok { ctx with unpack := true }]
        ⟨.ok (), .ok 0, .ok 0⟩ "example.com/repo:tag"
      = (.error .notImplemented, []) :=
  (fetch_unpack_rejected_before_lease_and_network
    [fun ctx => .ok { ctx with unpack := true }]
    ⟨.ok (), .ok 0, .ok 0⟩ "example.com/repo:tag"
    { defaultRemoteContext with unpack := true } rfl rfl).1

/-- C6: construction with an empty address and no local service
overrides fails with the Unavailable error: no client is returned. -/
theorem new_empty_address_no_services_unavailable
    (opts : List ClientOpt) (dial : Except Err ConnState) (copts : ClientOpts)
    (hopts : applyClientOpts opts {} = .ok copts)
    (hsvc : copts.services = none) :
    New "" opts dial = .error .unavailable := by
  unfold New
  rw [hopts]
  by_cases ht : copts.timeout = 0 <;> simp [ht, hsvc]

/-- C6 witness: constructing with empty address and no options. -/
theorem new_empty_address_witness :
    New "" [] (.ok ⟨0, false⟩) = .error .unavailable :=
  new_empty_address_no_services_unavailable [] (.ok ⟨0, false⟩) {} rfl rfl

/-- C7: when no connector was captured, Reconnect fails with the
Unavailable error, the state is returned unchanged (in particular the
installed connection), and no collaborator call is made. -/
theorem reconnect_without_connector_fails_unmutated
    (c : ReClient) (h : c.connector = none) :
    Reconnect c = ((some .unavailable, c), []) := by
  unfold Reconnect
  rw [h]

/-- C7 witness: a client built from an external connection (no
connector captured). -/
theorem reconnect_without_connector_witness :
    Reconnect ⟨⟨5, false⟩, none⟩ = ((some .unavailable, ⟨⟨5, false⟩, none⟩), []) :=
  reconnect_without_connector_fails_unmutated ⟨⟨5, false⟩, none⟩ rfl

/-- C9: when the connector is present but its dial fails, Reconnect
returns the dial error, the previously installed connection remains
installed but is now closed, and the trace shows the close happened
before the dial attempt. -/
theorem reconnect_dial_failure_keeps_closed_conn
    (c : ReClient) (e : Err) (h : c.connector = some (.error e)) :
    Reconnect c
      = ((some e, { c with conn := { c.conn with closed := true } }),
         [.connClose c.conn.id, .dialAttempt]) := by
  unfold Reconnect
  rw [h]

/-- C9 witness: a concrete client whose connector fails to dial. -/
theorem reconnect_dial_failure_witness :
    Reconnect ⟨⟨5, false⟩, some (.error (.external "dial tcp: refused"))⟩
      = ((some (.external "dial tcp: refused"), ⟨⟨5, true⟩, some (.error (.external "dial tcp: refused"))⟩),
         [.connClose 5, .dialAttempt]) :=
  reconnect_dial_failure_keeps_closed_conn
    ⟨⟨5, false⟩, some (.error (.external "dial tcp: refused"))⟩
    (.external "dial tcp: refused") rfl

/-- C10: when `resolveSnapshotterName` fails, `SnapshotService` drops
the error and uses the compiled-in default snapshotter name; its
result type carries no error, so nothing is reported to the caller. -/
theorem snapshot_service_uses_default_on_resolution_error
    (name : String) (labelRes : Except Err String) (e : Err)
    (h : resolveSnapshotterName name labelRes = .error e) :
    snapshotServiceName name labelRes = defaultSnapshotterName := by
  unfold snapshotServiceName
  rw [h]

/-- C10 witness: an empty snapshotter name with a failing namespace
label lookup. -/
theorem snapshot_service_default_witness :
    snapshotServiceName "" (.error (.external "label lookup failed")) = defaultSnapshotterName :=
  snapshot_service_uses_default_on_resolution_error ""
    (.error (.external "label lookup failed")) (.external "label lookup failed") rfl

/-- Helper: every Fetch trace takes one of three forms — empty (exit
before the lease), or a lease bracket around the fetch dispatch, with
or without the image-creation step. -/
theorem fetch_trace_forms (opts : List RemoteOpt) (env : FetchEnv) (ref : String) :
    (Fetch opts env ref).2 = []
    ∨ (Fetch opts env ref).2 = [.leaseCreate, .dispatchFetch ref, .leaseRelease]
    ∨ (Fetch opts env ref).2 = [.leaseCreate, .dispatchFetch ref, .createImage, .leaseRelease] := by
  unfold Fetch
  split
  · exact Or.inl rfl
  · split
    · exact Or.inl rfl
    · split
      · exact Or.inl rfl
      · split
        · exact Or.inl rfl
        · split
          · exact Or.inr (Or.inl rfl)
          · split
            · exact Or.inr (Or.inr rfl)
            · exact Or.inr (Or.inr rfl)

/-- Helper: no Push trace contains any lease event. -/
theorem push_trace_leaseless (opts : List RemoteOpt) (env : PushEnv) (ref digest : String) :
    leaseCreates (Push opts env ref digest).2 = 0
    ∧ leaseReleases (Push opts env ref digest).2 = 0 := by
  unfold Push
  split
  · exact ⟨rfl, rfl⟩
  · split
    · exact ⟨rfl, rfl⟩
    · cases henv : env.pusherResult with
      | error e => exact ⟨rfl, rfl⟩
      | ok u =>
        cases henv2 : env.pushResult with
        | error e => exact ⟨rfl, rfl⟩
        | ok u => exact ⟨rfl, rfl⟩

/-- C1 counterexample: a concrete successful Push call that acquires
no lease at all (its trace contains no lease create and no lease
release), refuting the claim that every Push call holds exactly one
lease. -/
theorem push_with_no_lease :
    (Push [] ⟨.ok (), .ok ()⟩ "example.com/repo:tag" "sha256:abc").1 = .ok ()
    ∧ leaseCreates (Push [] ⟨.ok (), .ok ()⟩ "example.com/repo:tag" "sha256:abc").2 = 0
    ∧ leaseReleases (Push [] ⟨.ok (), .ok ()⟩ "example.com/repo:tag" "sha256:abc").2 = 0 := by
  exact ⟨rfl, rfl, rfl⟩

/-- C1 (amended): every Fetch call's lease discipline is balanced — it
acquires at most one lease and every acquired lease is released on
every exit path, success or failure — while Push calls acquire no
lease at all. -/
theorem fetch_lease_balanced_push_leaseless
    (opts : List RemoteOpt) (env : FetchEnv) (ref : String)
    (popts : List RemoteOpt) (penv : PushEnv) (pref pdig : String) :
    leaseCreates (Fetch opts env ref).2 = leaseReleases (Fetch opts env ref).2
    ∧ leaseCreates (Fetch opts env ref).2 ≤ 1
    ∧ leaseCreates (Push popts penv pref pdig).2 = 0
    ∧ leaseReleases (Push popts penv pref pdig).2 = 0 := by
  obtain ⟨h1, h2⟩ := push_trace_leaseless popts penv pref pdig
  rcases fetch_trace_forms opts env ref with h | h | h <;> rw [h]
  · exact ⟨rfl, Nat.zero_le 1, h1, h2⟩
  · exact ⟨rfl, Nat.le_refl 1, h1, h2⟩
  · exact ⟨rfl, Nat.le_refl 1, h1, h2⟩

/-- C5: a Push call that reaches pusher resolution resolves exactly
one pusher, for the reference rewritten with the descriptor digest
when the reference contains no digest qualifier, and for the unchanged
reference otherwise. -/
theorem push_pusher_ref_digest_qualified
    (opts : List RemoteOpt) (env : PushEnv) (ref digest : String)
    (pushCtx : RemoteContext) (m : Matcher)
    (hopts : applyOpts opts defaultRemoteContext = .ok pushCtx)
    (hm : resolveMatcherPush pushCtx.platformMatcher pushCtx.platforms = .ok m) :
    pusherResolutions (Push opts env ref digest).2
      = [if ref.contains '@' then ref else ref ++ "@" ++ digest] := by
  unfold Push
  rw [hopts]
  simp only [hm]
  cases env.pusherResult with
  | error e => rfl
  | ok u =>
    cases env.pushResult with
    | error e => rfl
    | ok u => rfl

/-- C5 witness: a concrete Push of a bare tag reference. -/
theorem push_pusher_ref_witness :
    pusherResolutions (Push [] ⟨.ok (), .ok ()⟩ "example.com/repo:tag" "sha256:abc").2
      = [if ("example.com/repo:tag").contains '@' then "example.com/repo:tag"
         else "example.com/repo:tag" ++ "@" ++ "sha256:abc"] :=
  push_pusher_ref_digest_qualified [] ⟨.ok (), .ok ()⟩ "example.com/repo:tag" "sha256:abc"
    defaultRemoteContext .all rfl rfl

/-- C4: runtime resolution is idempotent — a call that returns without
error lets the next call return the same value without error — and a
failed label lookup commits nothing to the cache, so a later call can
still resolve the label. -/
theorem default_runtime_idempotent_no_poison
    (ns cache : String) (r1 r2 : Except Err String) (e : Err) (lbl : String)
    (hok : (defaultRuntime ns cache r1).1.2 = none)
    (hns : ns ≠ "") (hlbl : lbl ≠ "") :
    (defaultRuntime ns (defaultRuntime ns cache r1).2 r2).1
        = ((defaultRuntime ns cache r1).1.1, none)
    ∧ (defaultRuntime ns cache (.error e)).2 = cache
    ∧ (defaultRuntime ns (defaultRuntime ns "" (.error e)).2 (.ok lbl)).1 = (lbl, none) := by
  refine ⟨?_, ?_, ?_⟩
  · by_cases hc : cache = ""
    · cases r1 with
      | error e1 =>
        exfalso
        simp [defaultRuntime, hc, hns] at hok
      | ok label =>
        by_cases hl : label = ""
        · simp [defaultRuntime, hc, hns, hl, defaultRuntimeName]
        · simp [defaultRuntime, hc, hns, hl]
    · simp [defaultRuntime, hc]
  · by_cases hc : cache = ""
    · simp [defaultRuntime, hc, hns]
    · simp [defaultRuntime, hc]
  · simp [defaultRuntime, hns, hlbl]

/-- C4 witness: a failed lookup leaves the cache empty and a later
successful lookup resolves the label; a successful call is repeatable. -/
theorem default_runtime_witness :
    (defaultRuntime "default"
        (defaultRuntime "default" "" (.ok "my.runtime")).2 (.error (.external "boom"))).1
        = ((defaultRuntime "default" "" (.ok "my.runtime")).1.1, none)
    ∧ (defaultRuntime "default" "" (.error (.external "boom"))).2 = ""
    ∧ (defaultRuntime "default"
        (defaultRuntime "default" "" (.error (.external "boom"))).2 (.ok "labelled.runtime")).1
        = ("labelled.runtime", none) :=
  default_runtime_idempotent_no_poison "default" "" (.ok "my.runtime")
    (.error (.external "boom")) (.external "boom") "labelled.runtime"
    rfl (by decide) (by decide)

/-- C8 counterexample: for a one-manifest index the written label map
holds the key `containerd.io/gc.ref.content.0`, not the bare key
`gc.ref.content.0` stated by the claim. -/
theorem write_index_bare_key_absent :
    (writeIndex ⟨[{ digest := "sha256:abc" }]⟩ "checkpoint").labels
        = [("containerd.io/gc.ref.content.0", "sha256:abc")]
    ∧ (writeIndex ⟨[{ digest := "sha256:abc" }]⟩ "checkpoint").labels.lookup "gc.ref.content.0"
        = none := by
  exact ⟨rfl, rfl⟩

/-- C8 (amended): the written checkpoint index carries one
garbage-collector reference label per manifest entry, mapping key
`containerd.io/gc.ref.content.<i>` to the digest of manifest `i`, and
its data is the JSON serialization of the index. -/
theorem write_index_gc_ref_labels (index : OCIIndex) (ref : String) (i : Nat)
    (m : Descriptor) (h : index.manifests[i]? = some m) :
    (writeIndex index ref).labels.length = index.manifests.length
    ∧ (writeIndex index ref).labels[i]?
        = some ("containerd.io/gc.ref.content." ++ toString i, m.digest)
    ∧ (writeIndex index ref).data = jsonMarshalIndex index := by
  refine ⟨?_, ?_, rfl⟩
  · simp [writeIndex, writeIndexLabels]
  · simp [writeIndex, writeIndexLabels, List.getElem?_map, List.getElem?_enum, h]

/-- C8 witness: the second manifest of a concrete two-manifest index. -/
theorem write_index_gc_ref_labels_witness :
    (writeIndex sampleCheckpointIndex "cp").labels.length
        = sampleCheckpointIndex.manifests.length
    ∧ (writeIndex sampleCheckpointIndex "cp").labels[1]?
        = some ("containerd.io/gc.ref.content." ++ toString 1, "sha256:bbb")
    ∧ (writeIndex sampleCheckpointIndex "cp").data = jsonMarshalIndex sampleCheckpointIndex :=
  write_index_gc_ref_labels sampleCheckpointIndex "cp" 1
    { mediaType := "application/vnd.oci.image.manifest.v1+json",
      digest := "sha256:bbb", size := 4 } rfl
